import Mathlib

/-!
Shallow embedding of the cart/checkout service of the repository
(file src/unnamed/part_000, a Node/Express cart service over Mongo models).

Modelling conventions:
* Mongo documents become Lean structures; numeric JS values (wallet money,
  product cost, quantity) become Int.
* A Mongo findOne result (document or null) becomes an Option; each service
  function takes the findOne result for the cart directly, since the claims
  quantify over the cart state that the lookup returned.
* Throwing an ApiError becomes returning Except.error; the error carries the
  http status code and the message, exactly as in the source.
* cart.save / user.save become the returned updated documents; the separate,
  non-transactional persistence steps of checkout are modelled explicitly by
  checkoutPersistTrace below.
* Cart.create can fail at runtime (the source wraps it in try/catch for the
  duplicate-cart race); that environmental outcome is the createFails flag.
-/

/-- Product document: identifier and unit cost (src models/product). -/
structure Product where
  _id : String
  cost : Int
deriving DecidableEq, Repr

/-- A cart line item: embedded product document plus quantity, as pushed by
addProductToCart (line 95 of the source). -/
structure CartItem where
  product : Product
  quantity : Int
deriving DecidableEq, Repr

/-- Cart document: keyed by user email, ordered line items, payment option. -/
structure Cart where
  email : String
  cartItems : List CartItem
  paymentOption : String
deriving DecidableEq, Repr

/-- User document fields used by the service: email, wallet balance, and the
result of user.hasSetNonDefaultAddress(), modelled as the stored flag the
method reads. -/
structure User where
  email : String
  walletMoney : Int
  addressIsSet : Bool
deriving DecidableEq, Repr

/-- ApiError: http status code plus message, as thrown by the source. -/
structure ApiError where
  statusCode : Nat
  message : String
deriving DecidableEq, Repr

def httpStatus.NOT_FOUND : Nat := 404
def httpStatus.BAD_REQUEST : Nat := 400
def httpStatus.INTERNAL_SERVER_ERROR : Nat := 500
/-- The http status code of the Conflict error kind named by the spec. -/
def httpStatus.CONFLICT : Nat := 409

/-- Modelled from the spec: the default payment option applied at cart
creation comes from the config module, which is not part of the analysed
sources; only its existence matters to the claims, not its value. -/
def config.default_payment_option : String := "PAYMENT_OPTION_DEFAULT"

/-- Product.findOne on the products collection, matching by _id. -/
def Product.findOne (products : List Product) (productId : String) : Option Product :=
  products.find? (fun p => p._id == productId)

/-- Product.findById: Mongoose findById is findOne on _id. -/
def Product.findById (products : List Product) (productId : String) : Option Product :=
  products.find? (fun p => p._id == productId)

/-- The index-search loop of addProductToCart (lines 76-82): walks the cart
items and stops at the first item whose product._id equals productId (the
loop breaks on a match); yields -1 when no item matches. -/
def findFirstIndexLoop (productId : String) (items : List CartItem) (base : Nat) : Int :=
  match items with
  | [] => -1
  | item :: rest =>
    if productId == item.product._id then (base : Int)
    else findFirstIndexLoop productId rest (base + 1)

/-- The index-search loop of updateProductInCart and deleteProductFromCart
(lines 147-152 and 186-191): walks all cart items without breaking, so the
accumulator keeps the LAST matching index; -1 when no item matches. -/
def findIndexLoop (productId : String) (items : List CartItem) (base : Nat) (index : Int) : Int :=
  match items with
  | [] => index
  | item :: rest =>
    findIndexLoop productId rest (base + 1)
      (if productId == item.product._id then (base : Int) else index)

/-- The in-place quantity assignment cart.cartItems[index].quantity = quantity
(line 157): rewrites the quantity of the item at position i, leaving every
other item and the order untouched. -/
def setQuantity (items : List CartItem) (i : Nat) (q : Int) : List CartItem :=
  match items, i with
  | [], _ => []
  | item :: rest, 0 => { item with quantity := q } :: rest
  | item :: rest, n + 1 => item :: setQuantity rest n q

/-- Body of addProductToCart once a (found or freshly created) cart is in
hand: lines 76-103 of the source. First the break-on-match index scan; if the
product is absent the catalog is consulted and the item appended (push),
otherwise the duplicate-product error is thrown. -/
def addItemToFoundCart (products : List Product) (cart : Cart)
    (productId : String) (quantity : Int) : Except ApiError Cart :=
  let productIndex := findFirstIndexLoop productId cart.cartItems 0
  if productIndex == -1 then
    match Product.findOne products productId with
    | none =>
      .error { statusCode := httpStatus.BAD_REQUEST,
               message := "Product doesn\x27t exist in database" }
    | some product =>
      .ok { cart with cartItems := cart.cartItems ++ [{ product := product, quantity := quantity }] }
  else
    .error { statusCode := httpStatus.BAD_REQUEST,
             message := "Product already in cart. Use the cart sidebar to update or remove product from cart" }

/-- addProductToCart (lines 50-104). The first argument of type Option Cart
is the result of Cart.findOne on the user email. When it is none, Cart.create
is attempted; createFails says whether that create throws (the duplicate-cart
race caught at lines 60-65), in which case the 500 error is raised. The
follow-up null check at lines 68-73 can never fire (create either returned a
document or threw) and is therefore not represented. -/
def addProductToCart (products : List Product) (cart? : Option Cart) (createFails : Bool)
    (user : User) (productId : String) (quantity : Int) : Except ApiError Cart :=
  match cart? with
  | none =>
    if createFails then
      .error { statusCode := httpStatus.INTERNAL_SERVER_ERROR,
               message := "User cart creation failed because user already have a cart" }
    else
      addItemToFoundCart products
        { email := user.email, cartItems := [], paymentOption := config.default_payment_option }
        productId quantity
  | some cart => addItemToFoundCart products cart productId quantity

/-- updateProductInCart (lines 130-161): missing cart and missing catalog
product each yield 400; then the no-break index scan; -1 yields the
not-in-cart 400, otherwise the quantity at the found index is overwritten
and the cart saved. The index returned by the scan is always in range when
it is not -1 (proved below), so the source indexing never goes out of
bounds. -/
def updateProductInCart (products : List Product) (cart? : Option Cart)
    (user : User) (productId : String) (quantity : Int) : Except ApiError Cart :=
  match cart? with
  | none =>
    .error { statusCode := httpStatus.BAD_REQUEST,
             message := "User does not have a cart. Use POST to create cart and add a product" }
  | some cart =>
    match Product.findById products productId with
    | none =>
      .error { statusCode := httpStatus.BAD_REQUEST,
               message := "Product doesn\x27t exist in database" }
    | some _ =>
      let index := findIndexLoop productId cart.cartItems 0 (-1)
      if index == -1 then
        .error { statusCode := httpStatus.BAD_REQUEST, message := "Product not in cart" }
      else
        .ok { cart with cartItems := setQuantity cart.cartItems index.toNat quantity }

/-- deleteProductFromCart (lines 180-199): missing cart yields 400; the
no-break index scan; -1 yields the not-in-cart 400, otherwise splice removes
the one item at the found index and the cart is saved. The source returns
undefined; the persisted cart is returned here to track the state change. -/
def deleteProductFromCart (cart? : Option Cart) (productId : String) : Except ApiError Cart :=
  match cart? with
  | none =>
    .error { statusCode := httpStatus.BAD_REQUEST, message := "User does not have a cart" }
  | some cart =>
    let index := findIndexLoop productId cart.cartItems 0 (-1)
    if index == -1 then
      .error { statusCode := httpStatus.BAD_REQUEST, message := "Product not in cart" }
    else
      .ok { cart with cartItems := cart.cartItems.eraseIdx index.toNat }

/-- The checkout total loop (lines 230-233): accumulates
cartProductList[index].product.cost * cartProductList[index].quantity over
all line items, reading the cost stored INSIDE the cart line item (the
product document embedded at add time), not the products collection. -/
def cartTotal (items : List CartItem) : Int :=
  items.foldl (fun total item => total + item.product.cost * item.quantity) 0

/-- The pair of documents written on the success path of checkout. -/
structure CheckoutResult where
  user : User
  cart : Cart
deriving DecidableEq, Repr

/-- checkout (lines 210-243). The argument of type Option Cart is the result
of Cart.findOne on the user email. The guard at line 213 reads
userCart.cartItems && userCart.cartItems.length === 0; a Mongoose array is
always truthy, so it is the length test. The second emptiness guard at line
227 is kept verbatim. addressIsSet is the value of
user.hasSetNonDefaultAddress(). On success the debited user and the emptied
cart are the two documents handed to the two separate save calls. -/
def checkout (cart? : Option Cart) (user : User) : Except ApiError CheckoutResult :=
  match cart? with
  | none =>
    .error { statusCode := httpStatus.NOT_FOUND, message := "User does not have cart" }
  | some userCart =>
    if userCart.cartItems.length == 0 then
      .error { statusCode := httpStatus.BAD_REQUEST,
               message := "User does not have any Items in cart." }
    else if !user.addressIsSet then
      .error { statusCode := httpStatus.BAD_REQUEST, message := "user need to add address" }
    else
      let cartProductList := userCart.cartItems
      if cartProductList.length == 0 then
        .error { statusCode := httpStatus.BAD_REQUEST,
                 message := "Empty cart, add products to checkout" }
      else if user.walletMoney < cartTotal cartProductList then
        .error { statusCode := httpStatus.BAD_REQUEST, message := "Insufficient wallet balance" }
      else
        .ok { user := { user with walletMoney := user.walletMoney - cartTotal cartProductList },
              cart := { userCart with cartItems := [] } }

/-- A persisted (user document, cart document) pair, as stored in Mongo. -/
structure PersistedState where
  user : User
  cart : Cart
deriving DecidableEq, Repr

/-- The persisted state after a checkout call completes: on error nothing was
written, on success both documents hold their new values. -/
def checkoutFinalState (pre : PersistedState) : PersistedState :=
  match checkout (some pre.cart) pre.user with
  | .error _ => pre
  | .ok res => { user := res.user, cart := res.cart }

/-- Every externally observable persisted state during a checkout call, in
order. The source issues user.save() (line 238, not even awaited) and
userCart.save() (line 241) as two separate writes with no surrounding
transaction, so between the two writes the store holds the debited user
together with the still-full cart, and a crash or a concurrent reader at
that point observes it. -/
def checkoutPersistTrace (pre : PersistedState) : List PersistedState :=
  match checkout (some pre.cart) pre.user with
  | .error _ => [pre]
  | .ok res =>
    [pre,
     { user := res.user, cart := pre.cart },
     { user := res.user, cart := res.cart }]

/-- The wallet balance that is persisted once a checkout call finishes. -/
def walletAfterCheckout (cart? : Option Cart) (user : User) : Int :=
  match checkout cart? user with
  | .error _ => user.walletMoney
  | .ok res => res.user.walletMoney

/-- The product identifiers of the line items of a cart, in order. -/
def cartPids (cart : Cart) : List String :=
  cart.cartItems.map (fun item => item.product._id)

/-- The cart states reachable through the service operations for a fixed
products collection: freshly created carts are empty, and every successful
addProductToCart, updateProductInCart, deleteProductFromCart or checkout
leads from a reachable persisted cart to the cart it saves. -/
inductive ReachableCart (products : List Product) : Cart → Prop
  | created (email paymentOption : String) :
      ReachableCart products { email := email, cartItems := [], paymentOption := paymentOption }
  | addFresh (createFails : Bool) (user : User) (productId : String) (quantity : Int)
      (c' : Cart) :
      addProductToCart products none createFails user productId quantity = .ok c' →
      ReachableCart products c'
  | add (c : Cart) (createFails : Bool) (user : User) (productId : String) (quantity : Int)
      (c' : Cart) :
      ReachableCart products c →
      addProductToCart products (some c) createFails user productId quantity = .ok c' →
      ReachableCart products c'
  | update (c : Cart) (user : User) (productId : String) (quantity : Int) (c' : Cart) :
      ReachableCart products c →
      updateProductInCart products (some c) user productId quantity = .ok c' →
      ReachableCart products c'
  | delete (c : Cart) (productId : String) (c' : Cart) :
      ReachableCart products c →
      deleteProductFromCart (some c) productId = .ok c' →
      ReachableCart products c'
  | checkoutClear (c : Cart) (user : User) (res : CheckoutResult) :
      ReachableCart products c →
      checkout (some c) user = .ok res →
      ReachableCart products res.cart

/-- Follows the words of spec section 4.5 step 4: the cart total with every
unit cost re-resolved against the ProductCatalog at checkout time
(authoritative current price, not the stored snapshot); items whose product
no longer resolves contribute nothing. Stated only to be compared with the
behaviour of checkout. -/
def specResolvedTotal (products : List Product) (items : List CartItem) : Int :=
  items.foldl (fun total item =>
    match Product.findById products item.product._id with
    | some p => total + p.cost * item.quantity
    | none => total) 0

/- Concrete fixtures used by witnesses and counterexamples. -/

def productA : Product := { _id := "pa", cost := 10 }
def productB : Product := { _id := "pb", cost := 5 }
def catalog : List Product := [productA, productB]
def user100 : User := { email := "u", walletMoney := 100, addressIsSet := true }
def cartAB : Cart :=
  { email := "u",
    cartItems := [{ product := productA, quantity := 2 }, { product := productB, quantity := 1 }],
    paymentOption := config.default_payment_option }
def emptyCartU : Cart :=
  { email := "u", cartItems := [], paymentOption := config.default_payment_option }
def cartA1 : Cart :=
  { email := "u", cartItems := [{ product := productA, quantity := 2 }],
    paymentOption := config.default_payment_option }
def cartA0 : Cart :=
  { email := "u", cartItems := [{ product := productA, quantity := 0 }],
    paymentOption := config.default_payment_option }
/-- A catalog in which product pa now costs 20, while cartAB and cartA1 hold
a line-item snapshot of pa taken when it cost 10. -/
def catalog20 : List Product := [{ _id := "pa", cost := 20 }, productB]

/- Helper lemmas about the loops and the total. -/

theorem findFirstIndexLoop_eq_neg_one_iff (productId : String) (items : List CartItem)
    (base : Nat) :
    findFirstIndexLoop productId items base = -1 ↔
      ∀ item ∈ items, (productId == item.product._id) = false := by
  induction items generalizing base with
  | nil => simp [findFirstIndexLoop]
  | cons item rest ih =>
    by_cases hhead : (productId == item.product._id) = true
    · simp only [findFirstIndexLoop, hhead, if_true]
      constructor
      · intro h
        omega
      · intro h
        have := h item (by simp)
        simp [hhead] at this
    · have hhead' : (productId == item.product._id) = false := by
        cases hp : productId == item.product._id
        · rfl
        · exact absurd hp hhead
      simp only [findFirstIndexLoop, hhead', if_false, Bool.false_eq_true]
      rw [ih (base + 1)]
      constructor
      · intro h it hmem
        rcases List.mem_cons.mp hmem with rfl | hmem'
        · exact hhead'
        · exact h it hmem'
      · intro h it hmem
        exact h it (List.mem_cons_of_mem _ hmem)

theorem findIndexLoop_no_match (productId : String) (items : List CartItem)
    (base : Nat) (index : Int)
    (h : ∀ item ∈ items, (productId == item.product._id) = false) :
    findIndexLoop productId items base index = index := by
  induction items generalizing base index with
  | nil => rfl
  | cons item rest ih =>
    have hhead := h item (by simp)
    simp only [findIndexLoop, hhead, if_false, Bool.false_eq_true]
    exact ih (base + 1) index (fun it hmem => h it (List.mem_cons_of_mem _ hmem))

theorem findIndexLoop_match (productId : String) (items : List CartItem)
    (hex : ∃ item ∈ items, (productId == item.product._id) = true) :
    ∀ (base : Nat) (index : Int), ∃ j, ∃ hj : j < items.length,
      productId = (items.get ⟨j, hj⟩).product._id ∧
      findIndexLoop productId items base index = (base : Int) + j := by
  induction items with
  | nil => simp at hex
  | cons item rest ih =>
    intro base index
    by_cases hrest : ∃ it ∈ rest, (productId == it.product._id) = true
    · rcases ih hrest (base + 1)
        (if productId == item.product._id then (base : Int) else index) with
        ⟨j, hj, hpid, hres⟩
      refine ⟨j + 1, by simpa using Nat.succ_lt_succ hj, ?_, ?_⟩
      · simpa using hpid
      · simp only [findIndexLoop] at hres ⊢
        rw [hres]
        push_cast
        ring
    · have hnone : ∀ it ∈ rest, (productId == it.product._id) = false := by
        intro it hmem
        cases hp : productId == it.product._id
        · rfl
        · exact absurd ⟨it, hmem, hp⟩ hrest
      have hhead : (productId == item.product._id) = true := by
        rcases hex with ⟨it, hmem, hp⟩
        rcases List.mem_cons.mp hmem with rfl | hmem'
        · exact hp
        · exact absurd (hnone it hmem') (by simp [hp])
      refine ⟨0, by simp, ?_, ?_⟩
      · simpa using (beq_iff_eq.mp hhead)
      · simp only [findIndexLoop, hhead, if_true]
        rw [findIndexLoop_no_match productId rest (base + 1) (base : Int) hnone]
        omega

theorem cartTotal_foldl_aux (items : List CartItem) (a : Int) :
    items.foldl (fun total item => total + item.product.cost * item.quantity) a =
      a + (items.map (fun item => item.product.cost * item.quantity)).sum := by
  induction items generalizing a with
  | nil => simp
  | cons item rest ih =>
    simp only [List.foldl_cons, List.map_cons, List.sum_cons]
    rw [ih]
    ring

theorem cartTotal_eq_sum (items : List CartItem) :
    cartTotal items = (items.map (fun item => item.product.cost * item.quantity)).sum := by
  simpa using cartTotal_foldl_aux items 0

theorem setQuantity_map_pid (items : List CartItem) (i : Nat) (q : Int) :
    (setQuantity items i q).map (fun item => item.product._id) =
      items.map (fun item => item.product._id) := by
  induction items generalizing i with
  | nil => rfl
  | cons item rest ih =>
    cases i with
    | zero => simp [setQuantity]
    | succ n => simp [setQuantity, ih n]

theorem setQuantity_eq_set (items : List CartItem) (i : Nat) (q : Int)
    (h : i < items.length) :
    setQuantity items i q = items.set i { items.get ⟨i, h⟩ with quantity := q } := by
  induction items generalizing i with
  | nil => simp at h
  | cons item rest ih =>
    cases i with
    | zero => simp [setQuantity]
    | succ n =>
      simp only [setQuantity, List.set_cons_succ, List.get_cons_succ]
      rw [ih n (by simpa using Nat.lt_of_succ_lt_succ h)]

theorem addItemToFoundCart_ok (products : List Product) (cart : Cart)
    (productId : String) (quantity : Int) (c' : Cart)
    (h : addItemToFoundCart products cart productId quantity = .ok c') :
    ∃ product, Product.findOne products productId = some product ∧
      product._id = productId ∧
      c' = { cart with
             cartItems := cart.cartItems ++ [{ product := product, quantity := quantity }] } ∧
      ∀ item ∈ cart.cartItems, (productId == item.product._id) = false := by
  unfold addItemToFoundCart at h
  by_cases hidx : findFirstIndexLoop productId cart.cartItems 0 = -1
  · simp only [hidx, beq_self_eq_true, if_true] at h
    cases hfind : Product.findOne products productId with
    | none => rw [hfind] at h; exact absurd h (by simp)
    | some product =>
      rw [hfind] at h
      refine ⟨product, rfl, ?_, ?_, ?_⟩
      · have := List.find?_some hfind
        exact beq_iff_eq.mp this
      · simpa using (Except.ok.inj h).symm
      · exact (findFirstIndexLoop_eq_neg_one_iff productId cart.cartItems 0).mp hidx
  · have : (findFirstIndexLoop productId cart.cartItems 0 == -1) = false := by
      simpa using hidx
    simp only [this, if_false, Bool.false_eq_true] at h
    exact absurd h (by simp)

/- Claim theorems. -/

/-- C1: for every user whose cart exists and has at least one line item,
whose address flag is set, and whose wallet balance is at least the cart
total, checkout succeeds; afterwards the wallet balance equals the old
balance minus the sum over all line items of unit cost times quantity, and
the cart has zero line items. -/
theorem checkout_success (cart : Cart) (user : User)
    (hne : cart.cartItems ≠ [])
    (haddr : user.addressIsSet = true)
    (hbal : (cart.cartItems.map (fun item => item.product.cost * item.quantity)).sum ≤
      user.walletMoney) :
    ∃ res, checkout (some cart) user = .ok res ∧
      res.user.walletMoney =
        user.walletMoney -
          (cart.cartItems.map (fun item => item.product.cost * item.quantity)).sum ∧
      res.cart.cartItems = [] := by
  have hlen : (cart.cartItems.length == 0) = false := by
    simp [List.length_eq_zero]
    exact hne
  have htot := cartTotal_eq_sum cart.cartItems
  have hlt : ¬ user.walletMoney < cartTotal cart.cartItems := by omega
  refine ⟨{ user := { user with walletMoney := user.walletMoney - cartTotal cart.cartItems },
            cart := { cart with cartItems := [] } }, ?_, by simpa using htot, rfl⟩
  simp only [checkout, hlen, haddr, hlt, Bool.not_true, if_false, if_neg hlt,
    Bool.false_eq_true]

/-- C1 witness: the concrete example of the claim, a cart with quantities 2
and 1 at costs 10 and 5 against balance 100, ends with balance 75 and an
empty cart. -/
theorem checkout_success_witness :
    ∃ res, checkout (some cartAB) user100 = .ok res ∧
      res.user.walletMoney =
        user100.walletMoney -
          (cartAB.cartItems.map (fun item => item.product.cost * item.quantity)).sum ∧
      res.cart.cartItems = [] :=
  checkout_success cartAB user100 (by decide) (by decide) (by decide)

/-- C3: checkout fails with an InvalidRequest (status 400) error whenever the
cart has zero line items, or the address flag is unset, or the wallet balance
is strictly below the cart total; and every such failing call leaves the
persisted wallet balance and cart line items unchanged. -/
theorem checkout_error_cases (cart : Cart) (user : User)
    (h : cart.cartItems = [] ∨ user.addressIsSet = false ∨
      user.walletMoney < cartTotal cart.cartItems) :
    (∃ msg, checkout (some cart) user =
      .error { statusCode := httpStatus.BAD_REQUEST, message := msg }) ∧
    checkoutFinalState { user := user, cart := cart } = { user := user, cart := cart } := by
  have herr : ∃ msg, checkout (some cart) user =
      .error { statusCode := httpStatus.BAD_REQUEST, message := msg } := by
    by_cases hemp : cart.cartItems = []
    · exact ⟨"User does not have any Items in cart.", by simp [checkout, hemp]⟩
    · have hlen : (cart.cartItems.length == 0) = false := by
        simp [List.length_eq_zero]
        exact hemp
      by_cases haddr : user.addressIsSet = false
      · exact ⟨"user need to add address", by simp [checkout, hlen, haddr]⟩
      · have haddr' : user.addressIsSet = true := by
          cases ha : user.addressIsSet
          · exact absurd ha haddr
          · rfl
        have hbal : user.walletMoney < cartTotal cart.cartItems := by tauto
        exact ⟨"Insufficient wallet balance", by simp [checkout, hlen, haddr', hbal]⟩
  refine ⟨herr, ?_⟩
  rcases herr with ⟨msg, hmsg⟩
  simp [checkoutFinalState, hmsg]

/-- C3 witness: checkout of the empty cart fails with a 400 error and leaves
the persisted user and cart untouched. -/
theorem checkout_error_cases_witness :
    (∃ msg, checkout (some emptyCartU) user100 =
      .error { statusCode := httpStatus.BAD_REQUEST, message := msg }) ∧
    checkoutFinalState { user := user100, cart := emptyCartU } =
      { user := user100, cart := emptyCartU } :=
  checkout_error_cases emptyCartU user100 (Or.inl rfl)

/-- C8: a non-negative wallet balance stays non-negative across any checkout
call, successful or failing; checkout never debits more than the balance. -/
theorem checkout_wallet_nonneg (cart? : Option Cart) (user : User)
    (h : 0 ≤ user.walletMoney) : 0 ≤ walletAfterCheckout cart? user := by
  unfold walletAfterCheckout
  cases hc : checkout cart? user with
  | error e => exact h
  | ok res =>
    unfold checkout at hc
    split at hc
    · simp at hc
    · split at hc
      · simp at hc
      · simp only [] at hc
        split at hc
        · simp at hc
        · split at hc
          · simp at hc
          · have hres := Except.ok.inj hc
            rw [← hres]
            simp only []
            omega

/-- C8 witness: the concrete checkout of cartAB from balance 100 ends with a
non-negative persisted balance. -/
theorem checkout_wallet_nonneg_witness : 0 ≤ walletAfterCheckout (some cartAB) user100 :=
  checkout_wallet_nonneg (some cartAB) user100 (by decide)

/-- C10: the second empty-cart guard of checkout is dead code. Every error a
checkout call can produce carries one of the four live messages, and in
particular is never the message of the second guard, because an empty cart
already fails at the first emptiness check. -/
theorem checkout_second_guard_unreachable (cart? : Option Cart) (user : User) (e : ApiError)
    (h : checkout cart? user = .error e) :
    e.message ≠ "Empty cart, add products to checkout" ∧
    e.message ∈ ["User does not have cart", "User does not have any Items in cart.",
      "user need to add address", "Insufficient wallet balance"] := by
  unfold checkout at h
  split at h
  · have he := (Except.error.inj h).symm
    subst he
    exact ⟨by decide, by decide⟩
  · split at h
    · have he := (Except.error.inj h).symm
      subst he
      exact ⟨by decide, by decide⟩
    · split at h
      · have he := (Except.error.inj h).symm
        subst he
        exact ⟨by decide, by decide⟩
      · simp only [] at h
        split at h
        · contradiction
        · split at h
          · have he := (Except.error.inj h).symm
            subst he
            exact ⟨by decide, by decide⟩
          · simp at h

/-- C10 witness: the error produced by checkout with no cart carries one of
the live messages and not the dead-guard message. -/
theorem checkout_second_guard_unreachable_witness :
    ({ statusCode := httpStatus.NOT_FOUND, message := "User does not have cart" } :
        ApiError).message ≠ "Empty cart, add products to checkout" ∧
    ({ statusCode := httpStatus.NOT_FOUND, message := "User does not have cart" } :
        ApiError).message ∈
      ["User does not have cart", "User does not have any Items in cart.",
        "user need to add address", "Insufficient wallet balance"] :=
  checkout_second_guard_unreachable none user100
    { statusCode := httpStatus.NOT_FOUND, message := "User does not have cart" } rfl

/-- C2 (code bug evidence): the source persists the wallet debit (user.save,
line 238, not awaited) and the cart clear (userCart.save, line 241) as two
separate non-transactional writes. On the concrete run from balance 100 over
cartAB, the intermediate persisted state between the two writes is
observable and holds the debited balance 75 together with the still
non-empty cart: exactly the half-applied state the claim rules out. -/
theorem checkout_nonatomic_intermediate_state :
    { user := { email := "u", walletMoney := 75, addressIsSet := true },
      cart := cartAB : PersistedState } ∈
      checkoutPersistTrace { user := user100, cart := cartAB } ∧
    ({ email := "u", walletMoney := 75, addressIsSet := true } : User).walletMoney <
      user100.walletMoney ∧
    cartAB.cartItems ≠ [] := by decide

/-- C4 counterexample: cartA1 holds a snapshot of product pa at cost 10
(quantity 2), while in the catalog at checkout time pa costs 20. The claim
predicts a debit of specResolvedTotal catalog20 = 40 leaving balance 60;
checkout actually debits the snapshot total 20, leaving balance 80. -/
theorem checkout_price_snapshot_counterexample :
    checkout (some cartA1) user100 =
      .ok { user := { email := "u", walletMoney := 80, addressIsSet := true },
            cart := { email := "u", cartItems := [],
                      paymentOption := config.default_payment_option } } ∧
    specResolvedTotal catalog20 cartA1.cartItems = 40 ∧
    user100.walletMoney - specResolvedTotal catalog20 cartA1.cartItems = 60 ∧
    (80 : Int) ≠ 60 := by
  refine ⟨rfl, by decide, by decide, by decide⟩

/-- C4 amended: checkout computes the debited amount from the product data
embedded in the cart line items (the snapshot captured when the item was
added), summing stored unit cost times quantity; it never consults the
product collection, so the debit does not depend on the catalog contents at
checkout time. -/
theorem checkout_uses_snapshot_total (cart : Cart) (user : User) (res : CheckoutResult)
    (h : checkout (some cart) user = .ok res) :
    res.user.walletMoney =
      user.walletMoney -
        (cart.cartItems.map (fun item => item.product.cost * item.quantity)).sum := by
  simp only [checkout] at h
  split at h
  · simp at h
  · split at h
    · simp at h
    · split at h
      · simp at h
      · have hres := (Except.ok.inj h).symm
        subst hres
        simp only []
        rw [cartTotal_eq_sum]

/-- C4 amended witness: on the concrete checkout of cartA1 from balance 100
the persisted balance is 100 minus the snapshot total. -/
theorem checkout_uses_snapshot_total_witness :
    ({ user := { email := "u", walletMoney := 80, addressIsSet := true },
       cart := { email := "u", cartItems := [],
                 paymentOption := config.default_payment_option } } :
        CheckoutResult).user.walletMoney =
      user100.walletMoney -
        (cartA1.cartItems.map (fun item => item.product.cost * item.quantity)).sum :=
  checkout_uses_snapshot_total cartA1 user100 _ rfl

/-- C5 counterexample: with no existing cart and a failing Cart.create (the
concurrent-creation race of the claim), addProductToCart fails with http
status 500 INTERNAL_SERVER_ERROR, which is not the Conflict status 409. -/
theorem addProductToCart_create_failure_counterexample :
    addProductToCart catalog none true user100 "pa" 1 =
      .error { statusCode := httpStatus.INTERNAL_SERVER_ERROR,
               message := "User cart creation failed because user already have a cart" } ∧
    httpStatus.INTERNAL_SERVER_ERROR ≠ httpStatus.CONFLICT :=
  ⟨rfl, by decide⟩

/-- C5 amended: in addProductToCart, when no cart exists an empty cart with
the default payment option is created, and when that creation fails the call
fails with the InternalServerError status 500 (message about the already
existing cart), not with Conflict. -/
theorem addProductToCart_create_failure_500 (products : List Product) (user : User)
    (productId : String) (quantity : Int) :
    addProductToCart products none true user productId quantity =
      .error { statusCode := httpStatus.INTERNAL_SERVER_ERROR,
               message := "User cart creation failed because user already have a cart" } := rfl

/-- C6: on a cart that contains a line item for the given product (and with
the product present in the catalog), updateProductInCart succeeds and the
saved cart is the old cart with exactly one line item (one whose product
matches) rewritten to the given quantity via List.set: every other line item
and the order of items are unchanged. -/
theorem updateProductInCart_frame (products : List Product) (cart : Cart) (user : User)
    (productId : String) (quantity : Int) (product : Product)
    (hp : Product.findById products productId = some product)
    (hin : ∃ i, ∃ hi : i < cart.cartItems.length,
      (cart.cartItems.get ⟨i, hi⟩).product._id = productId) :
    ∃ j, ∃ hj : j < cart.cartItems.length,
      (cart.cartItems.get ⟨j, hj⟩).product._id = productId ∧
      updateProductInCart products (some cart) user productId quantity =
        .ok { cart with cartItems :=
          cart.cartItems.set j { cart.cartItems.get ⟨j, hj⟩ with quantity := quantity } } := by
  have hex : ∃ item ∈ cart.cartItems, (productId == item.product._id) = true := by
    rcases hin with ⟨i, hi, hpid⟩
    exact ⟨cart.cartItems.get ⟨i, hi⟩, List.get_mem _ _ _, beq_iff_eq.mpr hpid.symm⟩
  rcases findIndexLoop_match productId cart.cartItems hex 0 (-1) with ⟨j, hj, hpid, hres⟩
  have hres' : findIndexLoop productId cart.cartItems 0 (-1) = (j : Int) := by
    rw [hres]
    push_cast
    ring
  refine ⟨j, hj, hpid.symm, ?_⟩
  simp only [updateProductInCart, hp, hres']
  have hne : (((j : Nat) : Int) == -1) = false := by
    simp only [beq_eq_false_iff_ne]
    omega
  rw [hne]
  simp only [Bool.false_eq_true, if_false, Int.toNat_natCast]
  rw [setQuantity_eq_set cart.cartItems j quantity hj]

/-- C6 witness: updating product pb in cartAB to quantity 5 changes exactly
that line item. -/
theorem updateProductInCart_frame_witness :
    ∃ j, ∃ hj : j < cartAB.cartItems.length,
      (cartAB.cartItems.get ⟨j, hj⟩).product._id = "pb" ∧
      updateProductInCart catalog (some cartAB) user100 "pb" 5 =
        .ok { cartAB with cartItems :=
          cartAB.cartItems.set j { cartAB.cartItems.get ⟨j, hj⟩ with quantity := 5 } } :=
  updateProductInCart_frame catalog cartAB user100 "pb" 5 productB rfl
    ⟨1, by decide, by decide⟩

theorem addItemToFoundCart_dup_error (products : List Product) (cart : Cart)
    (pid : String) (q : Int) (hmem : pid ∈ cartPids cart) :
    addItemToFoundCart products cart pid q =
      .error { statusCode := httpStatus.BAD_REQUEST,
               message := "Product already in cart. Use the cart sidebar to update or remove product from cart" } := by
  have hne : ¬ findFirstIndexLoop pid cart.cartItems 0 = -1 := by
    intro hneg
    have hall := (findFirstIndexLoop_eq_neg_one_iff pid cart.cartItems 0).mp hneg
    rcases List.mem_map.mp hmem with ⟨item, hitem, hip⟩
    have hf := hall item hitem
    rw [hip] at hf
    simp at hf
  have hbeq : (findFirstIndexLoop pid cart.cartItems 0 == -1) = false := by
    simpa using hne
  simp only [addItemToFoundCart, hbeq, Bool.false_eq_true, if_false]

theorem addItemToFoundCart_nodup (products : List Product) (cart : Cart)
    (pid : String) (q : Int) (c' : Cart)
    (hnd : (cartPids cart).Nodup)
    (h : addItemToFoundCart products cart pid q = .ok c') :
    (cartPids c').Nodup := by
  rcases addItemToFoundCart_ok products cart pid q c' h with ⟨p, hfind, hpid, hc, hall⟩
  subst hc
  have hnotin : pid ∉ cartPids cart := by
    intro hmem
    rcases List.mem_map.mp hmem with ⟨item, hitem, hip⟩
    have hf := hall item hitem
    rw [hip] at hf
    simp at hf
  have hshape : cartPids { cart with
      cartItems := cart.cartItems ++ [{ product := p, quantity := q }] } =
      cartPids cart ++ [p._id] := by
    simp [cartPids]
  rw [hshape, List.nodup_append]
  refine ⟨hnd, List.nodup_singleton _, fun a ha hb => ?_⟩
  rw [List.mem_singleton] at hb
  subst hb
  rw [hpid] at ha
  exact hnotin ha

theorem updateProductInCart_ok_pids (products : List Product) (cart : Cart) (user : User)
    (pid : String) (q : Int) (c' : Cart)
    (h : updateProductInCart products (some cart) user pid q = .ok c') :
    cartPids c' = cartPids cart := by
  simp only [updateProductInCart] at h
  cases hfind : Product.findById products pid with
  | none => rw [hfind] at h; simp at h
  | some p =>
    rw [hfind] at h
    simp only [] at h
    split at h
    · simp at h
    · have hc := (Except.ok.inj h).symm
      subst hc
      simp [cartPids, setQuantity_map_pid]

theorem deleteProductFromCart_ok_pids_sublist (cart : Cart) (pid : String) (c' : Cart)
    (h : deleteProductFromCart (some cart) pid = .ok c') :
    (cartPids c').Sublist (cartPids cart) := by
  simp only [deleteProductFromCart] at h
  split at h
  · simp at h
  · have hc := (Except.ok.inj h).symm
    subst hc
    exact List.Sublist.map _ (List.eraseIdx_sublist _ _)

theorem checkout_ok_empty (cart : Cart) (user : User) (res : CheckoutResult)
    (h : checkout (some cart) user = .ok res) : res.cart.cartItems = [] := by
  simp only [checkout] at h
  split at h
  · simp at h
  · split at h
    · simp at h
    · split at h
      · simp at h
      · have hc := (Except.ok.inj h).symm
        subst hc
        rfl

/-- C7: in every cart reachable through the service operations, each product
identifier occurs in at most one line item (the list of product ids has no
duplicates); and addProductToCart on a product already present in the cart
fails with the InvalidRequest duplicate-product error instead of merging
quantities or appending a second line. -/
theorem reachable_cart_nodup (products : List Product) (c : Cart)
    (h : ReachableCart products c) :
    (cartPids c).Nodup ∧
    ∀ (createFails : Bool) (user : User) (productId : String) (quantity : Int),
      productId ∈ cartPids c →
      addProductToCart products (some c) createFails user productId quantity =
        .error { statusCode := httpStatus.BAD_REQUEST,
                 message := "Product already in cart. Use the cart sidebar to update or remove product from cart" } := by
  have hmain : (cartPids c).Nodup := by
    induction h with
    | created email po => simp [cartPids]
    | addFresh cf u pid q c' hok =>
      unfold addProductToCart at hok
      cases cf with
      | true => simp at hok
      | false =>
        simp only [Bool.false_eq_true, if_false] at hok
        exact addItemToFoundCart_nodup products _ pid q c' (by simp [cartPids]) hok
    | add c cf u pid q c' hr hok ih =>
      exact addItemToFoundCart_nodup products c pid q c' ih
        (by simpa only [addProductToCart] using hok)
    | update c u pid q c' hr hok ih =>
      rw [updateProductInCart_ok_pids products c u pid q c' hok]
      exact ih
    | delete c pid c' hr hok ih =>
      exact List.Nodup.sublist (deleteProductFromCart_ok_pids_sublist c pid c' hok) ih
    | checkoutClear c u res hr hok ih =>
      have hemp := checkout_ok_empty c u res hok
      simp [cartPids, hemp]
  refine ⟨hmain, ?_⟩
  intro cf u pid q hmem
  simp only [addProductToCart]
  exact addItemToFoundCart_dup_error products c pid q hmem

/-- C7 witness: the cart reached by creating an empty cart and adding product
pa has duplicate-free product ids, and adding pa again fails with the
duplicate-product InvalidRequest error. -/
theorem reachable_cart_nodup_witness :
    (cartPids cartA1).Nodup ∧
    addProductToCart catalog (some cartA1) false user100 "pa" 3 =
      .error { statusCode := httpStatus.BAD_REQUEST,
               message := "Product already in cart. Use the cart sidebar to update or remove product from cart" } := by
  have h := reachable_cart_nodup catalog cartA1
    (ReachableCart.add emptyCartU false user100 "pa" 2 cartA1
      (ReachableCart.created "u" config.default_payment_option) (by rfl))
  exact ⟨h.1, h.2 false user100 "pa" 3 (by decide)⟩

/-- C9 counterexample: addProductToCart performs no validation of the given
quantity, so the cart holding product pa with quantity 0 (not a positive
integer) is reachable: a successful add with quantity 0 on the freshly
created empty cart produces it. -/
theorem nonpositive_quantity_reachable :
    ReachableCart catalog cartA0 ∧
    cartA0.cartItems.any (fun item => decide (item.quantity ≤ 0)) = true :=
  ⟨ReachableCart.add emptyCartU false user100 "pa" 0 cartA0
      (ReachableCart.created "u" config.default_payment_option) (by rfl),
   by decide⟩

/-- C9 amended: addProductToCart (and likewise updateProductInCart, whose
assignment is setQuantity) accepts any integer quantity unchecked: whenever
the product exists in the catalog and is not yet in the cart, the add
succeeds and stores a line item carrying exactly the given quantity,
including zero and negative values; positivity of stored quantities is not
enforced by these operations. -/
theorem addProductToCart_any_quantity (products : List Product) (cart : Cart)
    (createFails : Bool) (user : User) (productId : String) (quantity : Int)
    (product : Product)
    (hnotin : productId ∉ cartPids cart)
    (hfind : Product.findOne products productId = some product) :
    addProductToCart products (some cart) createFails user productId quantity =
      .ok { cart with cartItems :=
        cart.cartItems ++ [{ product := product, quantity := quantity }] } := by
  have hall : ∀ item ∈ cart.cartItems, (productId == item.product._id) = false := by
    intro item hitem
    cases hb : productId == item.product._id
    · rfl
    · exact absurd (List.mem_map.mpr ⟨item, hitem, (beq_iff_eq.mp hb).symm⟩) hnotin
  have hneg : findFirstIndexLoop productId cart.cartItems 0 = -1 :=
    (findFirstIndexLoop_eq_neg_one_iff productId cart.cartItems 0).mpr hall
  simp only [addProductToCart, addItemToFoundCart, hneg, hfind]
  simp

/-- C9 amended witness: adding product pa with quantity 0 to the empty cart
succeeds and stores the line item with quantity 0. -/
theorem addProductToCart_any_quantity_witness :
    addProductToCart catalog (some emptyCartU) false user100 "pa" 0 =
      .ok { emptyCartU with cartItems :=
        emptyCartU.cartItems ++ [{ product := productA, quantity := 0 }] } :=
  addProductToCart_any_quantity catalog emptyCartU false user100 "pa" 0 productA
    (by decide) rfl
